import Mathlib

/-!
Verification of the key-cabinet access controller
(`TP_ARDUINO_CHAVES_DAVI_ANDRE.ino`).

Shallow embedding conventions:
* The global session variables (`sessaoAberta`, `idUsuarioAtual`,
  `tipoUsuarioAtual`, `timerSessao`) are collected in the structure `Sessao`.
* A digital key-slot reading is a `Bool`; `true` = HIGH = key absent,
  `false` = LOW = key present (pins are `INPUT_PULLUP`, active-high
  means the key was removed).
* `millis()` is a `Nat` supplied by the environment.
* The EEPROM is a function `Nat → Nat`; `eWrite` truncates to a byte,
  matching `EEPROM.write`.  An erased cell holds `0xFF = 255`.
* Arduino `String` values holding card identifiers are `List Char`.
* Fallible sensor commands are modelled by `Bool`-valued responses that
  the environment provides (`BioEnv`); the unbounded finger-removal
  wait is made total with a fuel parameter: `none` means the routine
  has not returned after `fuel` polls of the sensor.
* Side effects on the serial/Wi-Fi link are modelled as an action
  trace (`AcaoWifi`, `BioAct`).
-/

/-! Hardware constants from section 2/3 of the sketch. -/

def PINO_CHAVE_INICIO : Nat := 25

def PINO_CHAVE_FIM : Nat := 26

def TEMPO_LIMITE_SESSAO : Nat := 10000

/-- Telemetry events produced by the key-panel monitor
(`registrarRetirada`, `registrarDevolucao`, `dispararAlarme`). -/
inductive Evento where
  | retirada (pino : Nat) (idUser tipoUser : String)
  | devolucao (pino : Nat)
  | alarme (pino : Nat)
  deriving DecidableEq

/-- The global session state of the sketch: `sessaoAberta`,
`idUsuarioAtual`, `tipoUsuarioAtual`, `timerSessao`. -/
structure Sessao where
  sessaoAberta : Bool
  idUsuarioAtual : String
  tipoUsuarioAtual : String
  timerSessao : Nat
  deriving DecidableEq

/-- Body of the `monitorarPainelDeChaves` loop for one slot: given the
stored snapshot (`leituraAnterior`) and the current reading
(`leituraAtual`) of pin `pino`, classify the transition exactly as
lines 262-287 of the sketch do, returning the updated session and the
events emitted for this slot. -/
def passoChave (s : Sessao) (pino : Nat) (leituraAnterior leituraAtual : Bool) :
    Sessao × List Evento :=
  if leituraAtual ≠ leituraAnterior then
    if leituraAtual = true then
      -- key removed
      if s.sessaoAberta then
        ({ s with sessaoAberta := false, idUsuarioAtual := "" },
         [Evento.retirada pino s.idUsuarioAtual s.tipoUsuarioAtual])
      else
        (s, [Evento.alarme pino])
    else
      -- key returned
      (s, [Evento.devolucao pino])
  else
    (s, [])

/-- The `for` loop of `monitorarPainelDeChaves`: walk the slots in
ascending pin order, threading the session state.  Each list element is
the pair (stored snapshot, current reading) for one slot; the result is
the final session, the updated snapshot array and the concatenated
event list.  (When a reading is unchanged the sketch leaves the
snapshot cell alone; since it then equals the current reading, storing
`leituraAtual` unconditionally is the same array.) -/
def monitorarLoop (s : Sessao) (pino : Nat) :
    List (Bool × Bool) → Sessao × List Bool × List Evento
  | [] => (s, [], [])
  | (ant, atual) :: resto =>
      let pe := passoChave s pino ant atual
      let r := monitorarLoop pe.1 (pino + 1) resto
      (r.1, atual :: r.2.1, pe.2 ++ r.2.2)

/-- `monitorarPainelDeChaves`: scan the whole panel starting at
`PINO_CHAVE_INICIO`. -/
def monitorarPainelDeChaves (s : Sessao) (anteriores atuais : List Bool) :
    Sessao × List Bool × List Evento :=
  monitorarLoop s PINO_CHAVE_INICIO (anteriores.zip atuais)

/-- `verificarTimeoutSessao` (lines 241-250): while a session is open,
once `millis() - timerSessao > TEMPO_LIMITE_SESSAO` the session is
closed and `idUsuarioAtual` is reset to the empty string.  (The sketch
does not touch `tipoUsuarioAtual` here.) -/
def verificarTimeoutSessao (s : Sessao) (millisAgora : Nat) : Sessao :=
  if s.sessaoAberta then
    if millisAgora - s.timerSessao > TEMPO_LIMITE_SESSAO then
      { s with sessaoAberta := false, idUsuarioAtual := "" }
    else s
  else s

/-- Recognizer for authorized-retrieval events. -/
def ehRetirada : Evento → Bool
  | Evento.retirada _ _ _ => true
  | _ => false

/-- Recognizer for theft-alarm events. -/
def ehAlarme : Evento → Bool
  | Evento.alarme _ => true
  | _ => false

/-- Number of authorized-retrieval events in a list. -/
def contaRetiradas (evs : List Evento) : Nat := evs.countP ehRetirada

/-- Number of theft-alarm events in a list. -/
def contaAlarmes (evs : List Evento) : Nat := evs.countP ehAlarme

/-! EEPROM credential ledger (`verificarTagNaEEPROM`,
`salvarTagEEPROM`, `listarInfosIniciais`). -/

/-- The EEPROM modelled as address → stored byte. -/
abbrev EEPROM := Nat → Nat

/-- `EEPROM.write`: stores one byte. -/
def eWrite (e : EEPROM) (endereco valor : Nat) : EEPROM :=
  fun a => if a = endereco then valor % 256 else e a

/-- A factory-erased EEPROM: every cell reads `0xFF`. -/
def eepromApagada : EEPROM := fun _ => 255

/-- Lines 461-462: `int qtdTags = EEPROM.read(0); if (qtdTags == 0xFF)
qtdTags = 0;` — the record count with the erased sentinel mapped to
zero. -/
def lerQtdTags (e : EEPROM) : Nat :=
  if e 0 = 255 then 0 else e 0

/-- Lines 495-496 of `listarInfosIniciais`: the startup report reads
the same count byte with the same sentinel rule. -/
def relatorioTotalTags (e : EEPROM) : Nat :=
  if e 0 = 255 then 0 else e 0

/-- The sixteen characters an uppercase hexadecimal identifier may
contain. -/
def hexMaiusculos : List Char :=
  ['0', '1', '2', '3', '4', '5', '6', '7', '8', '9', 'A', 'B', 'C', 'D', 'E', 'F']

/-- Numeric value of a hexadecimal digit (as `strtol` base 16 sees it);
`0` for a non-digit. -/
def hexVal (c : Char) : Nat :=
  if '0' ≤ c ∧ c ≤ '9' then c.toNat - 48
  else if 'a' ≤ c ∧ c ≤ 'f' then c.toNat - 97 + 10
  else if 'A' ≤ c ∧ c ≤ 'F' then c.toNat - 65 + 10
  else 0

/-- Whether `strtol` base 16 accepts the character as a digit. -/
def ehHexDigito (c : Char) : Bool :=
  decide (('0' ≤ c ∧ c ≤ '9') ∨ ('a' ≤ c ∧ c ≤ 'f') ∨ ('A' ≤ c ∧ c ≤ 'F'))

/-- Uppercase hexadecimal digit for a value `0..15`. -/
def hexDigitoMaiusc (n : Nat) : Char :=
  if n < 10 then Char.ofNat (48 + n) else Char.ofNat (55 + n)

/-- Rendering of one stored byte as the sketch does it:
`String(valor < 0x10 ? "0" : "") + String(valor, HEX)` followed by the
final `toUpperCase()` — i.e. two uppercase hex digits with a leading
zero. -/
def byteToHexMaiusc (b : Nat) : List Char :=
  if b < 16 then ['0', hexDigitoMaiusc b]
  else [hexDigitoMaiusc (b / 16), hexDigitoMaiusc (b % 16)]

/-- `strtol(s, NULL, 16)` on a string of at most two characters, as
produced by `tagHex.substring(i*2, i*2+2)`: parse leading hex digits,
`0` if none. -/
def parseHexList : List Char → Nat
  | [] => 0
  | [c] => if ehHexDigito c then hexVal c else 0
  | c1 :: c2 :: _ =>
      if ehHexDigito c1 then
        if ehHexDigito c2 then 16 * hexVal c1 + hexVal c2 else hexVal c1
      else 0

/-- The inner `j` loop of `verificarTagNaEEPROM` (lines 464-471),
unrolled: read the four bytes of record `i` (base offset `1 + i*4`) and
render them as an 8-character uppercase hex string. -/
def lerTagArmazenada (e : EEPROM) (i : Nat) : List Char :=
  byteToHexMaiusc (e (1 + i * 4)) ++ byteToHexMaiusc (e (1 + i * 4 + 1)) ++
  byteToHexMaiusc (e (1 + i * 4 + 2)) ++ byteToHexMaiusc (e (1 + i * 4 + 3))

/-- `verificarTagNaEEPROM` (lines 460-475): linear scan of the ledger
comparing the scanned tag against each stored record. -/
def verificarTagNaEEPROM (e : EEPROM) (tagLida : List Char) : Bool :=
  (List.range (lerQtdTags e)).any fun i => tagLida == lerTagArmazenada e i

/-- `salvarTagEEPROM` (lines 477-487): write the four bytes parsed from
the tag string at the next free offset (`i` loop unrolled), then bump
the count byte.  There is no capacity check and no error path. -/
def salvarTagEEPROM (e : EEPROM) (tagHex : List Char) : EEPROM :=
  let qtdTags := lerQtdTags e
  let enderecoBase := 1 + qtdTags * 4
  let e1 := eWrite e enderecoBase (parseHexList ((tagHex.drop 0).take 2))
  let e2 := eWrite e1 (enderecoBase + 1) (parseHexList ((tagHex.drop 2).take 2))
  let e3 := eWrite e2 (enderecoBase + 2) (parseHexList ((tagHex.drop 4).take 2))
  let e4 := eWrite e3 (enderecoBase + 3) (parseHexList ((tagHex.drop 6).take 2))
  eWrite e4 0 (qtdTags + 1)

/-- A sequence of card enrollments applied to the ledger. -/
def appendAll (e : EEPROM) (tags : List (List Char)) : EEPROM :=
  tags.foldl salvarTagEEPROM e

/-- A normalized identifier: the 8-character uppercase hexadecimal
rendering of a 4-byte UID, which is what `lerSensorRFID` always
produces. -/
def tagNormalizada (t : List Char) : Prop :=
  t.length = 8 ∧ ∀ c ∈ t, c ∈ hexMaiusculos

instance : DecidablePred tagNormalizada := fun t =>
  inferInstanceAs (Decidable (t.length = 8 ∧ ∀ c ∈ t, c ∈ hexMaiusculos))

/-! Biometric enrollment (`executarRotinaCadastro`, lines 550-665). -/

/-- Environment responses for one biometric enrollment attempt.
`load i` is whether `finger.loadModel(i)` returns `FINGERPRINT_OK`
(the slot is occupied); `remocao n` is whether the `n`-th poll of
`finger.getImage()` during the finger-removal wait returns
`FINGERPRINT_NOFINGER`; `confirma` are the polls that fit in the 5 s
confirmation window (`true` = `FINGERPRINT_OK`); the remaining fields
are the success of `image2Tz(1)`, `image2Tz(2)`, `createModel` and
`storeModel`. -/
structure BioEnv where
  load : Nat → Bool
  conv1ok : Bool
  remocao : Nat → Bool
  confirma : List Bool
  conv2ok : Bool
  createOk : Bool
  storeOk : Bool

/-- Commands issued to the fingerprint sensor, recorded as a trace. -/
inductive BioAct where
  | carregarModelo (id : Nat)
  | converterImagem (buffer : Nat)
  | criarModelo
  | armazenarModelo (id : Nat)
  deriving DecidableEq

/-- Outcome of one pass through `executarRotinaCadastro`. -/
inductive CadResult where
  | rfidSalvo (tag : List Char)
  | memCheia
  | erroLeitura1
  | tempoEsgotado
  | erroLeitura2
  | dedoDiferente
  | sucesso (id : Nat)
  | erroGravacao
  | tempoLimite
  deriving DecidableEq

/-- What one iteration of the 10-second enrollment window observes:
a new card, a finger on the sensor, or nothing. -/
inductive PollCadastro where
  | cartao (tag : List Char)
  | dedo
  | nada
  deriving DecidableEq

/-- The free-slot search loop (lines 581-587): probe
`finger.loadModel(i)` for `i = inicio, inicio+1, ...` (`n` probes at
most) and stop at the first slot whose load fails.  Returns the found
slot (if any) together with the list of probed ids, in order. -/
def buscarSlotLoop (load : Nat → Bool) : Nat → Nat → Option Nat × List Nat
  | _, 0 => (none, [])
  | i, n + 1 =>
      if load i = false then (some i, [i])
      else
        let r := buscarSlotLoop load (i + 1) n
        (r.1, i :: r.2)

/-- The free-slot search as the sketch runs it: ids `1..127` in
ascending order. -/
def buscarSlotLivre (load : Nat → Bool) : Option Nat × List Nat :=
  buscarSlotLoop load 1 127

/-- The biometric branch of `executarRotinaCadastro` (lines 575-660),
entered when `finger.getImage()` sees a finger:
free-slot search first, then convert capture 1 to buffer 1, wait for
the finger to be removed (the sketch's `while` has no deadline: `none`
means the wait is still spinning after `fuel` polls), wait up to 5 s
for a second placement, convert to buffer 2, combine the buffers and
finally store at the slot found at the start.  The returned trace
records the sensor commands issued. -/
def rotinaBio (env : BioEnv) (fuel : Nat) : Option (CadResult × List BioAct) :=
  match buscarSlotLivre env.load with
  | (none, sondas) =>
      some (CadResult.memCheia, sondas.map BioAct.carregarModelo)
  | (some idNovo, sondas) =>
      if env.conv1ok = false then
        some (CadResult.erroLeitura1,
          sondas.map BioAct.carregarModelo ++ [BioAct.converterImagem 1])
      else if (List.range fuel).any env.remocao = false then
        none
      else if env.confirma.any (fun b => b) = false then
        some (CadResult.tempoEsgotado,
          sondas.map BioAct.carregarModelo ++ [BioAct.converterImagem 1])
      else if env.conv2ok = false then
        some (CadResult.erroLeitura2,
          sondas.map BioAct.carregarModelo ++
            [BioAct.converterImagem 1, BioAct.converterImagem 2])
      else if env.createOk = false then
        some (CadResult.dedoDiferente,
          sondas.map BioAct.carregarModelo ++
            [BioAct.converterImagem 1, BioAct.converterImagem 2, BioAct.criarModelo])
      else if env.storeOk = true then
        some (CadResult.sucesso idNovo,
          sondas.map BioAct.carregarModelo ++
            [BioAct.converterImagem 1, BioAct.converterImagem 2, BioAct.criarModelo,
             BioAct.armazenarModelo idNovo])
      else
        some (CadResult.erroGravacao,
          sondas.map BioAct.carregarModelo ++
            [BioAct.converterImagem 1, BioAct.converterImagem 2, BioAct.criarModelo,
             BioAct.armazenarModelo idNovo])

/-- `executarRotinaCadastro` as a whole: iterate the 10-second window
(`polls` are the reader observations that fit in it); a new card is
saved to the EEPROM at once, a finger enters the biometric branch, and
an exhausted window ends with a timeout message. -/
def executarRotinaCadastro (e : EEPROM) (env : BioEnv) (fuel : Nat) :
    List PollCadastro → Option (CadResult × List BioAct × EEPROM)
  | [] => some (CadResult.tempoLimite, [], e)
  | PollCadastro.nada :: resto => executarRotinaCadastro e env fuel resto
  | PollCadastro.cartao tag :: _ =>
      some (CadResult.rfidSalvo tag, [], salvarTagEEPROM e tag)
  | PollCadastro.dedo :: _ =>
      match rotinaBio env fuel with
      | none => none
      | some (res, tr) => some (res, tr, e)

/-! Telemetry transport (`enviarDadosFirebase`, lines 334-372). -/

/-- Actions performed on the Wi-Fi serial link, in order. -/
inductive AcaoWifi where
  | limparBuffer
  | comando (linha : List Char)
  | anunciarTamanho (n : Nat)
  | enviarDado (dados : List Char)
  deriving DecidableEq

def FIREBASE_HOST : List Char :=
  "seguranca-de-chaves-default-rtdb.firebaseio.com".toList

/-- The HTTP headers built on lines 356-359; `Content-Length` is the
byte length of the JSON body. -/
def montarHeaders (jsonDados : List Char) : List Char :=
  "POST /logs.json HTTP/1.1\r\nHost: ".toList ++ FIREBASE_HOST ++
  "\r\nContent-Type: application/json\r\nContent-Length: ".toList ++
  (Nat.repr jsonDados.length).toList ++ "\r\n\r\n".toList

/-- The AT commands issued before the connection wait (lines 338-346):
drain the inbound buffer, close any previous connection, set the SSL
buffer size, open the SSL connection to the fixed host and port. -/
def comandosConexao : List AcaoWifi :=
  [AcaoWifi.limparBuffer,
   AcaoWifi.comando ("AT+CIPCLOSE".toList),
   AcaoWifi.comando ("AT+CIPSSLSIZE=4096".toList),
   AcaoWifi.comando ("AT+CIPSTART=\"SSL\",\"".toList ++ FIREBASE_HOST ++ "\",443".toList)]

/-- Does `agulha` occur at the start of `linha`? -/
def comecaCom : List Char → List Char → Bool
  | [], _ => true
  | _ :: _, [] => false
  | a :: as, b :: bs => a = b && comecaCom as bs

/-- `linha.indexOf(agulha) != -1`: substring search. -/
def contemCadeia : List Char → List Char → Bool
  | [], agulha => agulha.isEmpty
  | c :: resto, agulha => comecaCom agulha (c :: resto) || contemCadeia resto agulha

/-- Line 352: a response line signals success when it contains the
`CONNECT` marker. -/
def marcadorConectado (linha : List Char) : Bool :=
  contemCadeia linha ("CONNECT".toList)

/-- `enviarDadosFirebase`: `linhas` are the response lines readable
within the 5-second wait (`TEMPO_ESPERA_CONEXAO`).  If none carries the
`CONNECT` marker the event is dropped after the setup commands; on
success the exact byte length of headers plus body is announced with
`AT+CIPSEND=` and then the headers and the JSON body are written. -/
def enviarDadosFirebase (linhas : List (List Char)) (jsonDados : List Char) :
    List AcaoWifi :=
  if linhas.any marcadorConectado then
    comandosConexao ++
      [AcaoWifi.anunciarTamanho ((montarHeaders jsonDados).length + jsonDados.length),
       AcaoWifi.enviarDado (montarHeaders jsonDados),
       AcaoWifi.enviarDado jsonDados]
  else
    comandosConexao

/-- The 5-second connection wait bound (line 350). -/
def TEMPO_ESPERA_CONEXAO : Nat := 5000

/-! Theorems. -/

/-- Claim C1: a `present → absent` slot transition (`false → true`
reading) processed while the session is active closes the session and
emits exactly one authorized-retrieval event and no theft event; the
same transition with no active session emits exactly one theft-alarm
event and no retrieval event; no transition ever emits both kinds of
event. -/
theorem passoChave_remocao_classifica :
    ∀ (s : Sessao) (pino : Nat),
      (s.sessaoAberta = true →
        passoChave s pino false true =
          ({ s with sessaoAberta := false, idUsuarioAtual := "" },
           [Evento.retirada pino s.idUsuarioAtual s.tipoUsuarioAtual]) ∧
        contaRetiradas (passoChave s pino false true).2 = 1 ∧
        contaAlarmes (passoChave s pino false true).2 = 0) ∧
      (s.sessaoAberta = false →
        passoChave s pino false true = (s, [Evento.alarme pino]) ∧
        contaAlarmes (passoChave s pino false true).2 = 1 ∧
        contaRetiradas (passoChave s pino false true).2 = 0) ∧
      (∀ ant atual : Bool,
        contaRetiradas (passoChave s pino ant atual).2 = 0 ∨
        contaAlarmes (passoChave s pino ant atual).2 = 0) := by
  intro s pino
  refine ⟨fun h => ?_, fun h => ?_, fun ant atual => ?_⟩
  · simp [passoChave, h, contaRetiradas, contaAlarmes, ehRetirada, ehAlarme,
      List.countP_cons, List.countP_nil]
  · simp [passoChave, h, contaRetiradas, contaAlarmes, ehRetirada, ehAlarme,
      List.countP_cons, List.countP_nil]
  · rcases hs : s.sessaoAberta <;> cases ant <;> cases atual <;>
      simp [passoChave, hs, contaRetiradas, contaAlarmes, ehRetirada, ehAlarme,
        List.countP_cons, List.countP_nil]

/-- Instantiation of `passoChave_remocao_classifica` on a concrete
open session and pin 25. -/
theorem passoChave_remocao_classifica_inst :
    passoChave ⟨true, "04A1B2C3", "RFID", 0⟩ 25 false true =
      (⟨false, "", "RFID", 0⟩, [Evento.retirada 25 "04A1B2C3" "RFID"]) :=
  ((passoChave_remocao_classifica ⟨true, "04A1B2C3", "RFID", 0⟩ 25).1 rfl).1

/-- Claim C7 counterexample: on timeout the sketch clears only
`idUsuarioAtual`; with an open RFID session whose window expired, the
session is indeed forced closed but `tipoUsuarioAtual` still reads
"RFID", so the credential kind is not cleared as the claim states. -/
theorem timeout_nao_limpa_tipo :
    (verificarTimeoutSessao ⟨true, "04A1B2C3", "RFID", 0⟩ 20000).sessaoAberta = false ∧
    (verificarTimeoutSessao ⟨true, "04A1B2C3", "RFID", 0⟩ 20000).idUsuarioAtual = "" ∧
    (verificarTimeoutSessao ⟨true, "04A1B2C3", "RFID", 0⟩ 20000).tipoUsuarioAtual = "RFID" := by
  refine ⟨?_, ?_, ?_⟩ <;> decide

/-- Claim C7 (amended): while the session is open, once the elapsed
time exceeds the 10-second window `verificarTimeoutSessao` forces the
session closed and clears the credential id; every other field,
including the credential kind, is left unchanged. -/
theorem timeout_fecha_e_limpa_id :
    ∀ (s : Sessao) (millisAgora : Nat),
      s.sessaoAberta = true →
      millisAgora - s.timerSessao > TEMPO_LIMITE_SESSAO →
      verificarTimeoutSessao s millisAgora =
        { s with sessaoAberta := false, idUsuarioAtual := "" } := by
  intro s m h1 h2
  simp [verificarTimeoutSessao, h1, h2]

/-- Instantiation of `timeout_fecha_e_limpa_id` at a concrete session
20 seconds after opening. -/
theorem timeout_fecha_e_limpa_id_inst :
    verificarTimeoutSessao ⟨true, "04A1B2C3", "RFID", 0⟩ 20000 =
      ⟨false, "", "RFID", 0⟩ :=
  timeout_fecha_e_limpa_id ⟨true, "04A1B2C3", "RFID", 0⟩ 20000 rfl (by decide)

/-- Claim C9: when no inbound line of the 5-second wait carries the
`CONNECT` marker, `enviarDadosFirebase` performs only the setup
commands — the event is dropped, no length is announced and no payload
byte is written; when the marker is seen, the transport is told the
exact byte length of headers plus body and then the headers and the
JSON body are written, in that order. -/
theorem firebase_envio_comportamento :
    ∀ (linhas : List (List Char)) (jsonDados : List Char),
      (linhas.any marcadorConectado = false →
        enviarDadosFirebase linhas jsonDados = comandosConexao ∧
        (∀ n, AcaoWifi.anunciarTamanho n ∉ enviarDadosFirebase linhas jsonDados) ∧
        (∀ d, AcaoWifi.enviarDado d ∉ enviarDadosFirebase linhas jsonDados)) ∧
      (linhas.any marcadorConectado = true →
        enviarDadosFirebase linhas jsonDados =
          comandosConexao ++
            [AcaoWifi.anunciarTamanho
               ((montarHeaders jsonDados).length + jsonDados.length),
             AcaoWifi.enviarDado (montarHeaders jsonDados),
             AcaoWifi.enviarDado jsonDados]) := by
  intro linhas jsonDados
  constructor
  · intro h
    refine ⟨by simp [enviarDadosFirebase, h], ?_, ?_⟩ <;>
      intro x <;> simp [enviarDadosFirebase, h, comandosConexao]
  · intro h
    simp [enviarDadosFirebase, h]

/-- Instantiation of `firebase_envio_comportamento`: a wait that only
ever reads "CLOSED" drops the event after the setup commands. -/
theorem firebase_envio_comportamento_inst :
    enviarDadosFirebase [("CLOSED".toList)] ("ev".toList) = comandosConexao :=
  ((firebase_envio_comportamento [("CLOSED".toList)] ("ev".toList)).1 (by decide)).1

/-- Parsing then re-rendering a two-character uppercase-hex chunk is
the identity (the `% 256` is the byte store of `eWrite`). -/
theorem chunk_ida_volta :
    ∀ c1 ∈ hexMaiusculos, ∀ c2 ∈ hexMaiusculos,
      byteToHexMaiusc (parseHexList [c1, c2] % 256) = [c1, c2] := by decide

/-- A list of length 8 is an explicit 8-tuple of elements. -/
theorem lista_oito (t : List Char) (h : t.length = 8) :
    ∃ a b c d e f g i, t = [a, b, c, d, e, f, g, i] := by
  rcases t with _ | ⟨a, _ | ⟨b, _ | ⟨c, _ | ⟨d, _ | ⟨e2, _ | ⟨f, _ | ⟨g, _ | ⟨i, resto⟩⟩⟩⟩⟩⟩⟩⟩ <;>
    simp only [List.length_cons, List.length_nil] at h <;> try omega
  have hr : resto = [] := by
    have : resto.length = 0 := by omega
    exact List.length_eq_zero.mp this
  subst hr
  exact ⟨a, b, c, d, e2, f, g, i, rfl⟩

/-- Reading the cell just written. -/
theorem eWrite_eq (e : EEPROM) (a v : Nat) : eWrite e a v a = v % 256 := by
  simp [eWrite]

/-- Reading any other cell. -/
theorem eWrite_ne (e : EEPROM) (a v b : Nat) (h : b ≠ a) : eWrite e a v b = e b := by
  simp [eWrite, h]

/-- `salvarTagEEPROM` unfolded into its five writes. -/
theorem salvar_passos (e : EEPROM) (t : List Char) :
    salvarTagEEPROM e t =
      eWrite
        (eWrite
          (eWrite
            (eWrite
              (eWrite e (1 + lerQtdTags e * 4) (parseHexList ((t.drop 0).take 2)))
              (1 + lerQtdTags e * 4 + 1) (parseHexList ((t.drop 2).take 2)))
            (1 + lerQtdTags e * 4 + 2) (parseHexList ((t.drop 4).take 2)))
          (1 + lerQtdTags e * 4 + 3) (parseHexList ((t.drop 6).take 2)))
        0 (lerQtdTags e + 1) := rfl

/-- The count byte after `salvarTagEEPROM`. -/
theorem salvar_em_0 (e : EEPROM) (t : List Char) :
    salvarTagEEPROM e t 0 = (lerQtdTags e + 1) % 256 := by
  rw [salvar_passos, eWrite_eq]

/-- `salvarTagEEPROM` leaves every cell strictly between the count
byte and the write base untouched. -/
theorem salvar_preserva (e : EEPROM) (t : List Char) (a : Nat)
    (h0 : a ≠ 0) (hlt : a < 1 + lerQtdTags e * 4) :
    salvarTagEEPROM e t a = e a := by
  rw [salvar_passos,
    eWrite_ne _ 0 _ a h0,
    eWrite_ne _ (1 + lerQtdTags e * 4 + 3) _ a (by omega),
    eWrite_ne _ (1 + lerQtdTags e * 4 + 2) _ a (by omega),
    eWrite_ne _ (1 + lerQtdTags e * 4 + 1) _ a (by omega),
    eWrite_ne _ (1 + lerQtdTags e * 4) _ a (by omega)]

/-- First byte written by `salvarTagEEPROM`. -/
theorem salvar_leitura_b0 (e : EEPROM) (t : List Char) :
    salvarTagEEPROM e t (1 + lerQtdTags e * 4) =
      parseHexList ((t.drop 0).take 2) % 256 := by
  rw [salvar_passos,
    eWrite_ne _ 0 _ (1 + lerQtdTags e * 4) (by omega),
    eWrite_ne _ (1 + lerQtdTags e * 4 + 3) _ (1 + lerQtdTags e * 4) (by omega),
    eWrite_ne _ (1 + lerQtdTags e * 4 + 2) _ (1 + lerQtdTags e * 4) (by omega),
    eWrite_ne _ (1 + lerQtdTags e * 4 + 1) _ (1 + lerQtdTags e * 4) (by omega),
    eWrite_eq]

/-- Second byte written by `salvarTagEEPROM`. -/
theorem salvar_leitura_b1 (e : EEPROM) (t : List Char) :
    salvarTagEEPROM e t (1 + lerQtdTags e * 4 + 1) =
      parseHexList ((t.drop 2).take 2) % 256 := by
  rw [salvar_passos,
    eWrite_ne _ 0 _ (1 + lerQtdTags e * 4 + 1) (by omega),
    eWrite_ne _ (1 + lerQtdTags e * 4 + 3) _ (1 + lerQtdTags e * 4 + 1) (by omega),
    eWrite_ne _ (1 + lerQtdTags e * 4 + 2) _ (1 + lerQtdTags e * 4 + 1) (by omega),
    eWrite_eq]

/-- Third byte written by `salvarTagEEPROM`. -/
theorem salvar_leitura_b2 (e : EEPROM) (t : List Char) :
    salvarTagEEPROM e t (1 + lerQtdTags e * 4 + 2) =
      parseHexList ((t.drop 4).take 2) % 256 := by
  rw [salvar_passos,
    eWrite_ne _ 0 _ (1 + lerQtdTags e * 4 + 2) (by omega),
    eWrite_ne _ (1 + lerQtdTags e * 4 + 3) _ (1 + lerQtdTags e * 4 + 2) (by omega),
    eWrite_eq]

/-- Fourth byte written by `salvarTagEEPROM`. -/
theorem salvar_leitura_b3 (e : EEPROM) (t : List Char) :
    salvarTagEEPROM e t (1 + lerQtdTags e * 4 + 3) =
      parseHexList ((t.drop 6).take 2) % 256 := by
  rw [salvar_passos,
    eWrite_ne _ 0 _ (1 + lerQtdTags e * 4 + 3) (by omega),
    eWrite_eq]

/-- While the stored count stays below the sentinel, `salvarTagEEPROM`
increments the visible record count. -/
theorem lerQtd_apos_salvar (e : EEPROM) (t : List Char)
    (hq : lerQtdTags e ≤ 253) :
    lerQtdTags (salvarTagEEPROM e t) = lerQtdTags e + 1 := by
  have h2 : lerQtdTags (salvarTagEEPROM e t) =
      if salvarTagEEPROM e t 0 = 255 then 0 else salvarTagEEPROM e t 0 := rfl
  have h1 : (lerQtdTags e + 1) % 256 = lerQtdTags e + 1 :=
    Nat.mod_eq_of_lt (by omega)
  rw [h2, salvar_em_0, h1, if_neg (by omega)]

/-- Reading back the record just written by `salvarTagEEPROM` yields
the appended tag, provided the tag is a normalized identifier. -/
theorem lerTag_apos_salvar (e : EEPROM) (t : List Char)
    (ht : tagNormalizada t) :
    lerTagArmazenada (salvarTagEEPROM e t) (lerQtdTags e) = t := by
  obtain ⟨hlen, hmem⟩ := ht
  obtain ⟨a, b, c, d, e2, f, g, i, rfl⟩ := lista_oito t hlen
  show byteToHexMaiusc (salvarTagEEPROM e _ (1 + lerQtdTags e * 4)) ++
      byteToHexMaiusc (salvarTagEEPROM e _ (1 + lerQtdTags e * 4 + 1)) ++
      byteToHexMaiusc (salvarTagEEPROM e _ (1 + lerQtdTags e * 4 + 2)) ++
      byteToHexMaiusc (salvarTagEEPROM e _ (1 + lerQtdTags e * 4 + 3)) = _
  rw [salvar_leitura_b0, salvar_leitura_b1, salvar_leitura_b2, salvar_leitura_b3]
  have hc : ∀ x ∈ [a, b, c, d, e2, f, g, i], x ∈ hexMaiusculos := hmem
  have h01 := chunk_ida_volta a (hc a (by simp)) b (hc b (by simp))
  have h23 := chunk_ida_volta c (hc c (by simp)) d (hc d (by simp))
  have h45 := chunk_ida_volta e2 (hc e2 (by simp)) f (hc f (by simp))
  have h67 := chunk_ida_volta g (hc g (by simp)) i (hc i (by simp))
  show byteToHexMaiusc (parseHexList [a, b] % 256) ++
      byteToHexMaiusc (parseHexList [c, d] % 256) ++
      byteToHexMaiusc (parseHexList [e2, f] % 256) ++
      byteToHexMaiusc (parseHexList [g, i] % 256) = _
  rw [h01, h23, h45, h67]
  rfl

/-- `salvarTagEEPROM` does not disturb any record already in the
ledger. -/
theorem lerTag_preservada (e : EEPROM) (t : List Char) (i : Nat)
    (hi : i < lerQtdTags e) :
    lerTagArmazenada (salvarTagEEPROM e t) i = lerTagArmazenada e i := by
  unfold lerTagArmazenada
  rw [salvar_preserva e t (1 + i * 4) (by omega) (by omega),
    salvar_preserva e t (1 + i * 4 + 1) (by omega) (by omega),
    salvar_preserva e t (1 + i * 4 + 2) (by omega) (by omega),
    salvar_preserva e t (1 + i * 4 + 3) (by omega) (by omega)]

/-- Ledger invariant: a run of appends of normalized tags that keeps
the stored count below the `0xFF` sentinel yields a ledger whose
visible count grows by the number of appends, whose old records are
untouched and whose new records read back exactly as the appended
tags. -/
theorem ledger_inv :
    ∀ (tags : List (List Char)) (e : EEPROM),
      (∀ t ∈ tags, tagNormalizada t) → lerQtdTags e + tags.length ≤ 254 →
      lerQtdTags (appendAll e tags) = lerQtdTags e + tags.length ∧
      (∀ i, i < lerQtdTags e →
        lerTagArmazenada (appendAll e tags) i = lerTagArmazenada e i) ∧
      (∀ j (hj : j < tags.length),
        lerTagArmazenada (appendAll e tags) (lerQtdTags e + j) = tags.get ⟨j, hj⟩) := by
  intro tags
  induction tags with
  | nil =>
      intro e _ _
      refine ⟨by simp [appendAll], fun i _ => by simp [appendAll], fun j hj => ?_⟩
      exact absurd hj (by simp)
  | cons t resto ih =>
      intro e hnorm hlen
      have hnt : tagNormalizada t := hnorm t (by simp)
      have hq : lerQtdTags e ≤ 253 := by
        simp only [List.length_cons] at hlen; omega
      have happ : appendAll e (t :: resto) = appendAll (salvarTagEEPROM e t) resto := by
        simp [appendAll]
      have hq1 : lerQtdTags (salvarTagEEPROM e t) = lerQtdTags e + 1 :=
        lerQtd_apos_salvar e t hq
      have hrest : ∀ u ∈ resto, tagNormalizada u := fun u hu => hnorm u (by simp [hu])
      have hlen2 : lerQtdTags (salvarTagEEPROM e t) + resto.length ≤ 254 := by
        rw [hq1]; simp only [List.length_cons] at hlen; omega
      obtain ⟨ihc, ihp, ihn⟩ := ih (salvarTagEEPROM e t) hrest hlen2
      refine ⟨?_, ?_, ?_⟩
      · rw [happ, ihc, hq1]; simp only [List.length_cons]; omega
      · intro i hi
        rw [happ, ihp i (by rw [hq1]; omega)]
        exact lerTag_preservada e t i hi
      · intro j hj
        rcases j with _ | j2
        · rw [happ, Nat.add_zero, ihp (lerQtdTags e) (by rw [hq1]; omega),
            lerTag_apos_salvar e t hnt]
          rfl
        · rw [happ]
          have hj2 : j2 < resto.length := by
            simp only [List.length_cons] at hj; omega
          have harith : lerQtdTags e + (j2 + 1) = lerQtdTags (salvarTagEEPROM e t) + j2 := by
            rw [hq1]; omega
          rw [harith, ihn j2 hj2]
          rfl

/-- Appending one more tag to a ledger whose count byte already reads
254 writes the count byte 255, which the sentinel rule maps back to
zero. -/
theorem lerQtd_apos_salvar_cheio (e : EEPROM) (t : List Char)
    (hq : lerQtdTags e = 254) :
    lerQtdTags (salvarTagEEPROM e t) = 0 := by
  have hr : lerQtdTags (salvarTagEEPROM e t) =
      if salvarTagEEPROM e t 0 = 255 then 0 else salvarTagEEPROM e t 0 := rfl
  rw [hr, salvar_em_0, hq]
  decide

/-- 254 appends of the example tag onto an erased EEPROM leave the
visible count at 254. -/
theorem replicate254_cheia :
    lerQtdTags (appendAll eepromApagada (List.replicate 254 ("04A1B2C3".toList))) = 254 := by
  have hnorm : ∀ t ∈ List.replicate 254 ("04A1B2C3".toList), tagNormalizada t := by
    intro t ht
    rw [List.eq_of_mem_replicate ht]
    decide
  have h0 : lerQtdTags eepromApagada = 0 := rfl
  obtain ⟨hc, -, -⟩ :=
    ledger_inv (List.replicate 254 ("04A1B2C3".toList)) eepromApagada hnorm
      (by rw [h0, List.length_replicate])
  rw [hc, h0, List.length_replicate]

/-- Claim C3 counterexample: the round-trip fails as stated.  Starting
from an erased EEPROM, append the (normalized) identifier `04A1B2C3`
255 times; the 255th `salvarTagEEPROM` raises the count byte to the
`0xFF` sentinel, so the lookup of the very tag just appended returns
`false`. -/
theorem roundtrip_falha_na_255a :
    tagNormalizada ("04A1B2C3".toList) ∧
    verificarTagNaEEPROM
        (salvarTagEEPROM (appendAll eepromApagada (List.replicate 254 ("04A1B2C3".toList)))
          ("04A1B2C3".toList))
        ("04A1B2C3".toList) = false := by
  refine ⟨by decide, ?_⟩
  have hz :=
    lerQtd_apos_salvar_cheio (appendAll eepromApagada (List.replicate 254 ("04A1B2C3".toList)))
      ("04A1B2C3".toList) replicate254_cheia
  show (List.range (lerQtdTags _)).any _ = false
  rw [hz]
  rfl

/-- Claim C3 (amended): the round-trip holds for every ledger built
from at most 254 appends of normalized identifiers onto an erased
EEPROM: every appended tag is found by `verificarTagNaEEPROM` and
every identifier never appended is not found.  (The bound is forced by
the count byte reaching the `0xFF` erased sentinel on the 255th
append.) -/
theorem roundtrip_com_limite :
    ∀ (tags : List (List Char)) (x y : List Char),
      (∀ t ∈ tags, tagNormalizada t) → tags.length ≤ 254 →
      (x ∈ tags → verificarTagNaEEPROM (appendAll eepromApagada tags) x = true) ∧
      (y ∉ tags → verificarTagNaEEPROM (appendAll eepromApagada tags) y = false) := by
  intro tags x y hnorm hlen
  have h0 : lerQtdTags eepromApagada = 0 := rfl
  obtain ⟨hc, -, hn⟩ := ledger_inv tags eepromApagada hnorm (by rw [h0]; omega)
  have hcount : lerQtdTags (appendAll eepromApagada tags) = tags.length := by
    rw [hc, h0, Nat.zero_add]
  have hrec : ∀ j (hj : j < tags.length),
      lerTagArmazenada (appendAll eepromApagada tags) j = tags.get ⟨j, hj⟩ := by
    intro j hj
    have h2 := hn j hj
    rwa [h0, Nat.zero_add] at h2
  constructor
  · intro hx
    obtain ⟨⟨k, hk⟩, hget⟩ := List.mem_iff_get.mp hx
    show (List.range (lerQtdTags _)).any _ = true
    rw [hcount]
    refine List.any_eq_true.mpr ⟨k, List.mem_range.mpr hk, ?_⟩
    rw [hrec k hk, hget]
    exact beq_self_eq_true x
  · intro hy
    show (List.range (lerQtdTags _)).any _ = false
    rw [hcount]
    refine List.any_eq_false.mpr ?_
    intro i hi
    rw [List.mem_range] at hi
    rw [hrec i hi]
    intro hbeq
    exact hy (by rw [beq_iff_eq.mp hbeq]; exact List.get_mem tags i hi)

/-- Instantiation of `roundtrip_com_limite` on a one-element ledger. -/
theorem roundtrip_com_limite_inst :
    verificarTagNaEEPROM (appendAll eepromApagada [("04A1B2C3".toList)])
      ("04A1B2C3".toList) = true ∧
    verificarTagNaEEPROM (appendAll eepromApagada [("04A1B2C3".toList)])
      ("DEADBEEF".toList) = false :=
  ⟨(roundtrip_com_limite [("04A1B2C3".toList)] ("04A1B2C3".toList) ("DEADBEEF".toList)
      (by decide) (by decide)).1 (by decide),
   (roundtrip_com_limite [("04A1B2C3".toList)] ("04A1B2C3".toList) ("DEADBEEF".toList)
      (by decide) (by decide)).2 (by decide)⟩

/-- Claim C4 (evidence at the failing input): `salvarTagEEPROM` has no
error path — appending to a ledger already holding 254 records is
accepted and silently wraps the visible count to zero instead of
reporting an error. -/
theorem salvar_estouro_sem_erro :
    lerQtdTags (appendAll eepromApagada (List.replicate 254 ("04A1B2C3".toList))) = 254 ∧
    lerQtdTags
      (salvarTagEEPROM (appendAll eepromApagada (List.replicate 254 ("04A1B2C3".toList)))
        ("04A1B2C3".toList)) = 0 :=
  ⟨replicate254_cheia,
   lerQtd_apos_salvar_cheio _ _ replicate254_cheia⟩

/-- Claim C10: when the stored count is 254, one more append writes
the count byte 255 = `0xFF`; both `verificarTagNaEEPROM` and the
startup report then read the count as zero, so every previously
appended identifier becomes invisible to lookup. -/
theorem contador_255_vira_zero :
    ∀ (e : EEPROM) (tag : List Char), lerQtdTags e = 254 →
      salvarTagEEPROM e tag 0 = 255 ∧
      lerQtdTags (salvarTagEEPROM e tag) = 0 ∧
      relatorioTotalTags (salvarTagEEPROM e tag) = 0 ∧
      (∀ t, verificarTagNaEEPROM (salvarTagEEPROM e tag) t = false) := by
  intro e tag hq
  have h255 : salvarTagEEPROM e tag 0 = 255 := by
    rw [salvar_em_0, hq]
  have hz : lerQtdTags (salvarTagEEPROM e tag) = 0 :=
    lerQtd_apos_salvar_cheio e tag hq
  refine ⟨h255, hz, ?_, ?_⟩
  · show (if salvarTagEEPROM e tag 0 = 255 then 0 else salvarTagEEPROM e tag 0) = 0
    rw [h255]
    decide
  · intro t
    show (List.range (lerQtdTags _)).any _ = false
    rw [hz]
    rfl

/-- Instantiation of `contador_255_vira_zero` at a concrete EEPROM
state holding 254 records. -/
theorem contador_255_vira_zero_inst :
    lerQtdTags
      (salvarTagEEPROM (fun a => if a = 0 then 254 else 255) ("04A1B2C3".toList)) = 0 ∧
    verificarTagNaEEPROM
      (salvarTagEEPROM (fun a => if a = 0 then 254 else 255) ("04A1B2C3".toList))
      ("04A1B2C3".toList) = false :=
  ⟨(contador_255_vira_zero (fun a => if a = 0 then 254 else 255) ("04A1B2C3".toList)
      (by decide)).2.1,
   (contador_255_vira_zero (fun a => if a = 0 then 254 else 255) ("04A1B2C3".toList)
      (by decide)).2.2.2 ("04A1B2C3".toList)⟩

/-- Characterization of a successful free-slot search: the returned id
is the first probed index whose load fails. -/
theorem buscarSlotLoop_some :
    ∀ (n i : Nat) (load : Nat → Bool) (id : Nat) (tr : List Nat),
      buscarSlotLoop load i n = (some id, tr) →
      i ≤ id ∧ id < i + n ∧ load id = false ∧ ∀ j, i ≤ j → j < id → load j = true := by
  intro n
  induction n with
  | zero =>
      intro i load id tr h
      simp [buscarSlotLoop] at h
  | succ n ih =>
      intro i load id tr h
      rcases hb : buscarSlotLoop load (i + 1) n with ⟨o, tr2⟩
      simp only [buscarSlotLoop, hb] at h
      by_cases hl : load i = false
      · rw [if_pos hl] at h
        rw [Prod.mk.injEq] at h
        obtain ⟨h1, h2⟩ := h
        injection h1 with h1
        subst h1
        exact ⟨Nat.le_refl _, by omega, hl, fun j hj1 hj2 => absurd hj1 (by omega)⟩
      · rw [if_neg hl] at h
        rw [Prod.mk.injEq] at h
        obtain ⟨h1, h2⟩ := h
        subst h1
        obtain ⟨ha, hb2, hc, hd⟩ := ih (i + 1) load id tr2 hb
        have hlt : load i = true := by
          revert hl; cases load i <;> simp
        refine ⟨by omega, by omega, hc, fun j hj1 hj2 => ?_⟩
        rcases Nat.eq_or_lt_of_le hj1 with he | he
        · rw [← he]; exact hlt
        · exact hd j (by omega) hj2

/-- When every probed slot is occupied the search reports none. -/
theorem buscarSlotLoop_none :
    ∀ (n i : Nat) (load : Nat → Bool),
      (∀ j, i ≤ j → j < i + n → load j = true) →
      (buscarSlotLoop load i n).1 = none := by
  intro n
  induction n with
  | zero => intro i load _; rfl
  | succ n ih =>
      intro i load hall
      have hl : load i = true := hall i (Nat.le_refl i) (by omega)
      simp only [buscarSlotLoop]
      rw [if_neg (by rw [hl]; decide)]
      show (buscarSlotLoop load (i + 1) n).1 = none
      exact ih (i + 1) load (fun j hj1 hj2 => hall j (by omega) (by omega))

/-- Helper for the enrollment-termination claim: once the
finger-removal wait is eventually released, the biometric branch
returns a result for a large enough fuel. -/
theorem rotinaBio_termina (env : BioEnv) (n : Nat) (hn : env.remocao n = true) :
    ∃ r, rotinaBio env (n + 1) = some r := by
  have hany : (List.range (n + 1)).any env.remocao = true :=
    List.any_eq_true.mpr ⟨n, List.mem_range.mpr (Nat.lt_succ_self n), hn⟩
  have hs : (rotinaBio env (n + 1)).isSome = true := by
    rcases hb : buscarSlotLivre env.load with ⟨o, sondas⟩
    cases o with
    | none =>
        simp only [rotinaBio, hb]
        rfl
    | some id =>
        simp only [rotinaBio, hb]
        split_ifs with h1 h2 h3 h4 h5 h6 <;>
          first
            | rfl
            | (rw [hany] at h2; exact absurd h2 (by decide))
  obtain ⟨r, hr⟩ := Option.isSome_iff_exists.mp hs
  exact ⟨r, hr⟩

/-- Claim C5: the enrollment free-slot search scans ids 1..127 in
ascending order and returns the first id whose load probe fails (so
with ids 1-5 occupied it returns 6); when every id is occupied the
routine aborts with the capacity error; and in every run of the
biometric branch all load probes precede every other sensor command,
in particular any image conversion. -/
theorem busca_slot_livre_correta :
    ∀ load : Nat → Bool,
      (∀ id, (buscarSlotLivre load).1 = some id →
        1 ≤ id ∧ id ≤ 127 ∧ load id = false ∧ ∀ j, 1 ≤ j → j < id → load j = true) ∧
      ((∀ j, 1 ≤ j → j ≤ 127 → load j = true) → (buscarSlotLivre load).1 = none) ∧
      (∀ (env : BioEnv) (fuel : Nat), env.load = load →
        (buscarSlotLivre load).1 = none →
        rotinaBio env fuel =
          some (CadResult.memCheia,
            (buscarSlotLivre load).2.map BioAct.carregarModelo)) ∧
      (∀ (env : BioEnv) (fuel : Nat) (res : CadResult) (tr : List BioAct),
        env.load = load → rotinaBio env fuel = some (res, tr) →
        ∃ resto, tr = (buscarSlotLivre load).2.map BioAct.carregarModelo ++ resto ∧
          ∀ i, BioAct.carregarModelo i ∉ resto) ∧
      (buscarSlotLivre (fun i => decide (1 ≤ i ∧ i ≤ 5))).1 = some 6 := by
  intro load
  refine ⟨?_, ?_, ?_, ?_, by decide⟩
  · intro id h
    rcases hb : buscarSlotLivre load with ⟨o, sondas⟩
    rw [hb] at h
    simp only at h
    subst h
    obtain ⟨ha, hb2, hc, hd⟩ := buscarSlotLoop_some 127 1 load id sondas hb
    exact ⟨ha, by omega, hc, hd⟩
  · intro hall
    exact buscarSlotLoop_none 127 1 load (fun j hj1 hj2 => hall j hj1 (by omega))
  · intro env fuel henv hnone
    rcases hb : buscarSlotLivre load with ⟨o, sondas⟩
    rw [hb] at hnone
    simp only at hnone
    subst hnone
    simp only [rotinaBio, henv, hb]
  · intro env fuel res tr henv h
    rcases hb : buscarSlotLivre load with ⟨o, sondas⟩
    cases o with
    | none =>
        simp only [rotinaBio, henv, hb] at h
        simp only [Option.some.injEq, Prod.mk.injEq] at h
        obtain ⟨-, h2⟩ := h
        subst h2
        exact ⟨[], by simp, by simp⟩
    | some id =>
        simp only [rotinaBio, henv, hb] at h
        split_ifs at h <;>
          first
            | exact Option.noConfusion h
            | (simp only [Option.some.injEq, Prod.mk.injEq] at h
               obtain ⟨-, h2⟩ := h
               subst h2
               exact ⟨_, rfl, by intro i; simp⟩)

/-- Instantiation of `busca_slot_livre_correta`: with slots 1-5
occupied the search picks slot 6, which is indeed free. -/
theorem busca_slot_livre_correta_inst :
    (buscarSlotLivre (fun i => decide (1 ≤ i ∧ i ≤ 5))).1 = some 6 ∧
    (fun i => decide (1 ≤ i ∧ i ≤ 5)) 6 = false := by
  have h := busca_slot_livre_correta (fun i => decide (1 ≤ i ∧ i ≤ 5))
  exact ⟨h.2.2.2.2, (h.1 6 (by decide)).2.2.1⟩

/-- Claim C6: when the two captures do not combine (`createModel`
mismatch) the biometric enrollment aborts with the "finger differs"
error and the candidate slot is never written: no store command
appears in the trace. -/
theorem mismatch_aborta_sem_store :
    ∀ (env : BioEnv) (fuel idNovo : Nat) (sondas : List Nat),
      buscarSlotLivre env.load = (some idNovo, sondas) →
      env.conv1ok = true →
      (List.range fuel).any env.remocao = true →
      env.confirma.any (fun b => b) = true →
      env.conv2ok = true →
      env.createOk = false →
      rotinaBio env fuel =
        some (CadResult.dedoDiferente,
          sondas.map BioAct.carregarModelo ++
            [BioAct.converterImagem 1, BioAct.converterImagem 2, BioAct.criarModelo]) ∧
      (∀ i, BioAct.armazenarModelo i ∉
          sondas.map BioAct.carregarModelo ++
            [BioAct.converterImagem 1, BioAct.converterImagem 2, BioAct.criarModelo]) := by
  intro env fuel idNovo sondas hb h1 h2 h3 h4 h5
  constructor
  · simp only [rotinaBio, hb]
    rw [if_neg (by rw [h1]; decide), if_neg (by rw [h2]; decide),
      if_neg (by rw [h3]; decide), if_neg (by rw [h4]; decide), if_pos h5]
  · intro i
    simp

/-- Instantiation of `mismatch_aborta_sem_store`: slot 1 free, both
conversions succeed, combine reports mismatch. -/
theorem mismatch_aborta_sem_store_inst :
    rotinaBio ⟨fun i => decide (2 ≤ i), true, fun _ => true, [true], true, false, true⟩ 1 =
      some (CadResult.dedoDiferente,
        [BioAct.carregarModelo 1, BioAct.converterImagem 1, BioAct.converterImagem 2,
         BioAct.criarModelo]) :=
  (mismatch_aborta_sem_store ⟨fun i => decide (2 ≤ i), true, fun _ => true, [true], true,
      false, true⟩ 1 1 [1] (by decide) rfl (by decide) (by decide) rfl rfl).1

/-- Claim C8 counterexample: the enrollment excursion does NOT
terminate for every sensor-response sequence.  With a finger presented,
a free slot available and a first conversion that succeeds, a sensor
that never reports `FINGERPRINT_NOFINGER` keeps the removal wait
(line 611, `while (finger.getImage() != FINGERPRINT_NOFINGER) {}`)
spinning forever: no amount of fuel makes the routine return. -/
theorem cadastro_pode_nao_terminar :
    ¬ ∃ (fuel : Nat) (r : CadResult × List BioAct × EEPROM),
        executarRotinaCadastro eepromApagada
          ⟨fun _ => false, true, fun _ => false, [], true, true, true⟩ fuel
          [PollCadastro.dedo] = some r := by
  rintro ⟨fuel, r, h⟩
  have hb : buscarSlotLivre
      (⟨fun _ => false, true, fun _ => false, [], true, true, true⟩ : BioEnv).load =
      (some 1, [1]) := rfl
  have hany : (List.range fuel).any
      (⟨fun _ => false, true, fun _ => false, [], true, true, true⟩ : BioEnv).remocao =
      false := by
    simp [List.any_eq_false]
  have hnone : rotinaBio ⟨fun _ => false, true, fun _ => false, [], true, true, true⟩
      fuel = none := by
    simp only [rotinaBio, hb]
    rw [if_neg (by decide), if_pos (by rw [hany])]
  simp only [executarRotinaCadastro, hnone] at h
  exact Option.noConfusion h

/-- Claim C8 (amended): the enrollment excursion terminates for every
poll sequence and every sensor-response environment in which the
finger-removal wait is eventually released (some poll reports
no-finger); every other wait in the routine is deadline-bounded.  The
counterexample `cadastro_pode_nao_terminar` shows the extra hypothesis
is necessary. -/
theorem cadastro_termina_se_dedo_removido :
    ∀ (e0 : EEPROM) (polls : List PollCadastro) (env : BioEnv),
      (∃ n, env.remocao n = true) →
      ∃ (fuel : Nat) (r : CadResult × List BioAct × EEPROM),
        executarRotinaCadastro e0 env fuel polls = some r := by
  intro e0 polls env hn
  obtain ⟨n, hn⟩ := hn
  induction polls with
  | nil => exact ⟨0, (CadResult.tempoLimite, [], e0), rfl⟩
  | cons p resto ih =>
      cases p with
      | nada =>
          obtain ⟨fuel, r, hr⟩ := ih
          exact ⟨fuel, r, hr⟩
      | cartao tag =>
          exact ⟨0, (CadResult.rfidSalvo tag, [], salvarTagEEPROM e0 tag), rfl⟩
      | dedo =>
          obtain ⟨⟨res, tr⟩, hrb⟩ := rotinaBio_termina env n hn
          refine ⟨n + 1, (res, tr, e0), ?_⟩
          show (match rotinaBio env (n + 1) with
            | none => none
            | some (res2, tr2) => some (res2, tr2, e0)) = some (res, tr, e0)
          rw [hrb]

/-- Instantiation of `cadastro_termina_se_dedo_removido`: with the
sensor reporting no-finger on the first removal poll the excursion
returns. -/
theorem cadastro_termina_se_dedo_removido_inst :
    ∃ (fuel : Nat) (r : CadResult × List BioAct × EEPROM),
      executarRotinaCadastro eepromApagada
        ⟨fun _ => false, true, fun _ => true, [true], true, true, true⟩ fuel
        [PollCadastro.dedo] = some r :=
  cadastro_termina_se_dedo_removido eepromApagada [PollCadastro.dedo]
    ⟨fun _ => false, true, fun _ => true, [true], true, true, true⟩ ⟨0, rfl⟩

/-- One-step unfolding of the panel scan loop. -/
theorem monitorarLoop_cons (s : Sessao) (pino : Nat) (ant atual : Bool)
    (resto : List (Bool × Bool)) :
    monitorarLoop s pino ((ant, atual) :: resto) =
      ((monitorarLoop (passoChave s pino ant atual).1 (pino + 1) resto).1,
       atual :: (monitorarLoop (passoChave s pino ant atual).1 (pino + 1) resto).2.1,
       (passoChave s pino ant atual).2 ++
         (monitorarLoop (passoChave s pino ant atual).1 (pino + 1) resto).2.2) := rfl

/-- A slot step that is not a `present → absent` removal leaves the
session untouched and emits at most a return event. -/
theorem passoChave_nao_remocao (s : Sessao) (pino : Nat) (ant atual : Bool)
    (hne : ¬(ant = false ∧ atual = true)) :
    (passoChave s pino ant atual).1 = s ∧
    ((passoChave s pino ant atual).2 = [] ∨
      (passoChave s pino ant atual).2 = [Evento.devolucao pino]) := by
  cases ant with
  | false =>
      cases atual with
      | false => simp [passoChave]
      | true => exact absurd ⟨rfl, rfl⟩ hne
  | true =>
      cases atual with
      | false => simp [passoChave]
      | true => simp [passoChave]

/-- With the session closed, the remaining panel scan reports every
removal as a theft alarm, emits no retrieval and keeps the session
closed. -/
theorem monitorarLoop_sessao_fechada :
    ∀ (ps : List (Bool × Bool)) (s : Sessao) (pino : Nat),
      s.sessaoAberta = false →
      contaRetiradas (monitorarLoop s pino ps).2.2 = 0 ∧
      (∀ j, ps.get? j = some (false, true) →
        Evento.alarme (pino + j) ∈ (monitorarLoop s pino ps).2.2) ∧
      (monitorarLoop s pino ps).1.sessaoAberta = false := by
  intro ps
  induction ps with
  | nil =>
      intro s pino hs
      refine ⟨rfl, ?_, hs⟩
      intro j hj
      simp [List.get?] at hj
  | cons p resto ih =>
      rcases p with ⟨ant, atual⟩
      intro s pino hs
      have hp1 : (passoChave s pino ant atual).1 = s ∧
          contaRetiradas (passoChave s pino ant atual).2 = 0 ∧
          (ant = false ∧ atual = true →
            (passoChave s pino ant atual).2 = [Evento.alarme pino]) := by
        cases ant <;> cases atual <;>
          simp [passoChave, hs, contaRetiradas, List.countP_cons, ehRetirada]
      obtain ⟨hpe, hpc, hpa⟩ := hp1
      rw [monitorarLoop_cons, hpe]
      obtain ⟨ih1, ih2, ih3⟩ := ih s (pino + 1) hs
      refine ⟨?_, ?_, ih3⟩
      · simp only [contaRetiradas, List.countP_append]
        simp only [contaRetiradas] at hpc ih1
        omega
      · intro j hj
        rcases j with _ | j2
        · simp only [List.get?] at hj
          injection hj with hj
          rw [Prod.mk.injEq] at hj
          rw [hpa hj]
          simp
        · simp only [List.get?] at hj
          have hmem := ih2 j2 hj
          have harith : pino + (j2 + 1) = pino + 1 + j2 := by omega
          rw [harith]
          exact List.mem_append_right _ hmem

/-- Claim C2: slots are scanned in ascending pin order within a tick;
with an open session, the first `present → absent` transition (lowest
offset `k`) emits the single authorized retrieval and closes the
session, and every other simultaneous removal in the same tick is
reported as a theft alarm. -/
theorem monitorarLoop_primeira_remocao :
    ∀ (ps : List (Bool × Bool)) (s : Sessao) (pino k : Nat),
      s.sessaoAberta = true →
      ps.get? k = some (false, true) →
      (∀ j, j < k → ps.get? j ≠ some (false, true)) →
      contaRetiradas (monitorarLoop s pino ps).2.2 = 1 ∧
      Evento.retirada (pino + k) s.idUsuarioAtual s.tipoUsuarioAtual ∈
        (monitorarLoop s pino ps).2.2 ∧
      (∀ j, j ≠ k → ps.get? j = some (false, true) →
        Evento.alarme (pino + j) ∈ (monitorarLoop s pino ps).2.2) ∧
      (monitorarLoop s pino ps).1.sessaoAberta = false := by
  intro ps
  induction ps with
  | nil =>
      intro s pino k hs hk _
      simp [List.get?] at hk
  | cons p resto ih =>
      rcases p with ⟨ant, atual⟩
      intro s pino k hs hk hfirst
      rcases k with _ | k2
      · simp only [List.get?] at hk
        injection hk with hk
        rw [Prod.mk.injEq] at hk
        obtain ⟨h1, h2⟩ := hk
        subst h1
        subst h2
        have hpasso : passoChave s pino false true =
            ({ s with sessaoAberta := false, idUsuarioAtual := "" },
             [Evento.retirada pino s.idUsuarioAtual s.tipoUsuarioAtual]) := by
          simp [passoChave, hs]
        rw [monitorarLoop_cons, hpasso]
        obtain ⟨hc1, hc2, hc3⟩ :=
          monitorarLoop_sessao_fechada resto
            { s with sessaoAberta := false, idUsuarioAtual := "" } (pino + 1) rfl
        refine ⟨?_, ?_, ?_, hc3⟩
        · simp only [contaRetiradas, List.countP_append, List.countP_cons,
            List.countP_nil]
          simp only [contaRetiradas] at hc1
          simp [ehRetirada, hc1]
        · simp
        · intro j hj hjget
          rcases j with _ | j2
          · exact absurd rfl hj
          · simp only [List.get?] at hjget
            have hmem := hc2 j2 hjget
            have harith : pino + (j2 + 1) = pino + 1 + j2 := by omega
            rw [harith]
            exact List.mem_append_right _ hmem
      · have hhead := hfirst 0 (Nat.succ_pos k2)
        simp only [List.get?] at hhead hk
        have hne : ¬(ant = false ∧ atual = true) := by
          rintro ⟨ha, hb⟩
          subst ha
          subst hb
          exact hhead rfl
        obtain ⟨hp1, hp2⟩ := passoChave_nao_remocao s pino ant atual hne
        rw [monitorarLoop_cons, hp1]
        obtain ⟨ih1, ih2, ih3, ih4⟩ :=
          ih s (pino + 1) k2 hs hk (fun j hj => hfirst (j + 1) (by omega))
        refine ⟨?_, ?_, ?_, ih4⟩
        · simp only [contaRetiradas, List.countP_append]
          simp only [contaRetiradas] at ih1
          have hz : ((passoChave s pino ant atual).2).countP ehRetirada = 0 := by
            rcases hp2 with h | h <;> rw [h] <;> simp [ehRetirada]
          omega
        · have harith : pino + (k2 + 1) = pino + 1 + k2 := by omega
          rw [harith]
          exact List.mem_append_right _ ih2
        · intro j hj hjget
          rcases j with _ | j2
          · simp only [List.get?] at hjget
            injection hjget with hjget
            rw [Prod.mk.injEq] at hjget
            exact absurd hjget hne
          · simp only [List.get?] at hjget
            have hmem := ih3 j2 (by omega) hjget
            have harith : pino + (j2 + 1) = pino + 1 + j2 := by omega
            rw [harith]
            exact List.mem_append_right _ hmem

/-- Instantiation of `monitorarLoop_primeira_remocao`: both slots of
the panel removed in the same tick with an open session — one
retrieval (slot at pin 25) and one alarm (pin 26). -/
theorem monitorarLoop_primeira_remocao_inst :
    contaRetiradas
      (monitorarLoop ⟨true, "04A1B2C3", "RFID", 0⟩ 25
        [(false, true), (false, true)]).2.2 = 1 ∧
    Evento.retirada 25 "04A1B2C3" "RFID" ∈
      (monitorarLoop ⟨true, "04A1B2C3", "RFID", 0⟩ 25
        [(false, true), (false, true)]).2.2 ∧
    Evento.alarme 26 ∈
      (monitorarLoop ⟨true, "04A1B2C3", "RFID", 0⟩ 25
        [(false, true), (false, true)]).2.2 := by
  have h := monitorarLoop_primeira_remocao [(false, true), (false, true)]
    ⟨true, "04A1B2C3", "RFID", 0⟩ 25 0 rfl rfl
    (fun j hj => absurd hj (Nat.not_lt_zero j))
  refine ⟨h.1, ?_, ?_⟩
  · have h2 := h.2.1
    simpa using h2
  · have h3 := h.2.2.1 1 (by omega) rfl
    simpa using h3
